import Mathlib

/-!
Shallow embedding of the four NES-core variants found in `src/scripts`:

* `zero-imports.c`        — namespace `ZI`
* `fceux-zero-imports.c`  — namespace `FZI`
* `nes-standalone.c`      — namespace `NS`
* `fceux-simple.c`        — namespace `FS`

Buffers (frame buffer, palette, ROM staging buffer, CHR RAM) are byte maps
`Nat → Nat`; machine integers are `Nat` / `Int` with explicit reductions
modulo `2^8` or `2^32` exactly where the C code's fixed-width arithmetic
wraps.  C's `(v + k) & 0xFF` on a `uint8_t` value promoted to `int` is
written `(v + k) % 256`, and `(v - 32) & 0xFF` — which on the promoted
non-negative value equals subtraction modulo 256 — is written
`(v + 224) % 256`.
-/

namespace NesCore

/-- Byte read from a host-supplied byte sequence (C reads `rom_data[i]` as a
`uint8_t`, so every entry is reduced to a byte value). Reads past the end of
the sequence yield 0. -/
def byteAt (d : List Nat) (i : Nat) : Nat := d.getD i 0 % 256

/-- The manual `zero_mem` / `my_memset(_, 0, size)` loops: bytes below
`size` become 0, the rest of the map is untouched. -/
def zero_mem (buf : Nat → Nat) (size : Nat) : Nat → Nat :=
  fun i => if i < size then 0 else buf i

/-- The manual `copy_mem` / `my_memcpy` loops: bytes below `size` are taken
from the source sequence, the rest of the map is untouched. -/
def copy_mem (dst : Nat → Nat) (src : List Nat) (size : Nat) : Nat → Nat :=
  fun i => if i < size then byteAt src i else dst i

/-- The alpha-fill loop `for (i = 3; i < size; i += 4) buf[i] = 255`. -/
def set_alpha_bytes (buf : Nat → Nat) (size : Nat) : Nat → Nat :=
  fun i => if i < size ∧ i % 4 = 3 then 255 else buf i

/-- The iNES magic check shared by every `loadRom`: the first four bytes
must be `4E 45 53 1A`. -/
def magicOk (d : List Nat) : Prop :=
  byteAt d 0 = 0x4E ∧ byteAt d 1 = 0x45 ∧ byteAt d 2 = 0x53 ∧ byteAt d 3 = 0x1A

instance (d : List Nat) : Decidable (magicOk d) := by
  unfold magicOk; infer_instance

/-! ## Variant `zero-imports.c` (ZI) -/

namespace ZI

/-- The module-level statics of `zero-imports.c`. -/
structure State where
  frame_buffer : Nat → Nat
  nes_palette : Nat → Nat
  rom_buffer : Nat → Nat
  initialized : Bool
  rom_loaded : Bool
  controls : Nat
  frame_count : Nat
  rom_size : Nat

/-- The state at module load: all statics zero-initialized. -/
def initialState : State :=
  { frame_buffer := fun _ => 0
    nes_palette := fun _ => 0
    rom_buffer := fun _ => 0
    initialized := false
    rom_loaded := false
    controls := 0
    frame_count := 0
    rom_size := 0 }

/-- `init_palette`: entry `i` gets `((i*4)&255, (i*8)&255, (i*16)&255, 255)`
for `i < 64`, i.e. all 256 palette bytes are written. -/
def init_palette (pal : Nat → Nat) : Nat → Nat :=
  fun j =>
    if j < 256 then
      let e := j / 4
      if j % 4 = 0 then (e * 4) % 256
      else if j % 4 = 1 then (e * 8) % 256
      else if j % 4 = 2 then (e * 16) % 256
      else 255
    else pal j

/-- `clear_frame`: zero the 245760 frame-buffer bytes, then set every alpha
byte (index ≡ 3 mod 4) to 255. -/
def clear_frame (fb : Nat → Nat) : Nat → Nat :=
  set_alpha_bytes (zero_mem fb 245760) 245760

/-- One RGB triple of `render_frame`; `fc` is the already incremented frame
counter used by the loop body. -/
def pixel (controls fc x y : Nat) : Nat × Nat × Nat :=
  let r0 := (x + fc) % 256
  let g0 := (y + fc) % 256
  let b0 := (x + y + fc) % 256
  let r1 := if controls &&& 1 ≠ 0 then (r0 + 64) % 256 else r0
  let r2 := if controls &&& 2 ≠ 0 then (r1 + 224) % 256 else r1
  let g1 := if controls &&& 4 ≠ 0 then (g0 + 64) % 256 else g0
  let g2 := if controls &&& 8 ≠ 0 then (g1 + 224) % 256 else g1
  let b1 := if controls &&& 128 ≠ 0 then (b0 + 128) % 256 else b0
  let b2 := if controls &&& 64 ≠ 0 then (b1 + 96) % 256 else b1
  (r2, g2, b2)

/-- `render_frame`: increment the 32-bit frame counter, then write every
pixel `(x, y)` at offset `(y*256 + x)*4`.  The loops cover each index
`i < 245760` exactly once, with `x = (i/4) % 256`, `y = (i/4) / 256` and
channel `i % 4`. -/
def render_frame (s : State) : State :=
  let fc := (s.frame_count + 1) % 4294967296
  { s with
    frame_count := fc
    frame_buffer := fun i =>
      if i < 245760 then
        let p := i / 4
        let rgb := pixel s.controls fc (p % 256) (p / 256)
        if i % 4 = 0 then rgb.1
        else if i % 4 = 1 then rgb.2.1
        else if i % 4 = 2 then rgb.2.2
        else 255
      else s.frame_buffer i }

/-- Exported `init`. -/
def init (s : State) : Nat × State :=
  if s.initialized then (1, s)
  else
    (1, { frame_buffer := clear_frame (zero_mem s.frame_buffer 245760)
          nes_palette := init_palette (zero_mem s.nes_palette 256)
          rom_buffer := zero_mem s.rom_buffer 2097152
          initialized := true
          rom_loaded := false
          controls := 0
          frame_count := 0
          rom_size := 0 })

/-- Exported `loadRom` (`size` is a C `int`). -/
def loadRom (s : State) (rom_data : List Nat) (size : Int) : Nat × State :=
  if ¬ s.initialized ∨ size < 16 ∨ size > 2097152 then (0, s)
  else if ¬ magicOk rom_data then (0, s)
  else
    (1, { s with
          rom_buffer := copy_mem s.rom_buffer rom_data size.toNat
          rom_size := size.toNat
          rom_loaded := true })

/-- Exported `frame`: gated only on `initialized` in this variant. -/
def frame (s : State) : State :=
  if ¬ s.initialized then s else render_frame s

/-- Exported `reset`. -/
def reset (s : State) : State :=
  { s with controls := 0, frame_count := 0, frame_buffer := clear_frame s.frame_buffer }

/-- Exported `setButton` (`button`, `pressed` are C `int`s); `controls` is a
`uint32_t`, so clearing a bit masks with the 32-bit complement of the mask. -/
def setButton (s : State) (button pressed : Int) : State :=
  if button < 0 ∨ button > 7 then s
  else
    let mask := 1 <<< button.toNat
    if pressed ≠ 0 then { s with controls := s.controls ||| mask }
    else { s with controls := s.controls &&& (4294967295 ^^^ mask) }

/-- Exported `setRunning`: empty body in this variant. -/
def setRunning (s : State) (_running : Int) : State := s

/-- Exported `getFrameBuffer`: returns a view of the frame buffer, no state
change. -/
def getFrameBuffer (s : State) : (Nat → Nat) × State := (s.frame_buffer, s)

/-- Exported `getFrameBufferSize`: `sizeof(frame_buffer) = 245760`. -/
def getFrameBufferSize (s : State) : Nat × State := (245760, s)

/-- Exported `getPalette`: returns a view of the palette, no state change. -/
def getPalette (s : State) : (Nat → Nat) × State := (s.nes_palette, s)

/-- One host-visible entry-point invocation with its arguments. -/
inductive Call where
  | init : Call
  | loadRom : List Nat → Int → Call
  | frame : Call
  | reset : Call
  | setButton : Int → Int → Call
  | setRunning : Int → Call
  | getFrameBuffer : Call
  | getFrameBufferSize : Call
  | getPalette : Call

/-- The state transformation of one entry-point call. -/
def step (s : State) : Call → State
  | .init => (init s).2
  | .loadRom d n => (loadRom s d n).2
  | .frame => frame s
  | .reset => reset s
  | .setButton b p => setButton s b p
  | .setRunning r => setRunning s r
  | .getFrameBuffer => (getFrameBuffer s).2
  | .getFrameBufferSize => (getFrameBufferSize s).2
  | .getPalette => (getPalette s).2

/-- The state after executing a call sequence from module load. -/
def run (cs : List Call) : State := cs.foldl step initialState

/-- Relational small-step semantics of one entry-point call of
`zero-imports.c`, with one constructor per control-flow branch of the C
code; branch results are spelled out explicitly.  Used to state that the
module's behaviour is a function of the call sequence. -/
inductive Step : State → Call → State → Prop where
  | init_already (s : State) (h : s.initialized = true) :
      Step s .init s
  | init_fresh (s : State) (h : s.initialized = false) :
      Step s .init
        { frame_buffer := clear_frame (zero_mem s.frame_buffer 245760)
          nes_palette := init_palette (zero_mem s.nes_palette 256)
          rom_buffer := zero_mem s.rom_buffer 2097152
          initialized := true
          rom_loaded := false
          controls := 0
          frame_count := 0
          rom_size := 0 }
  | loadRom_reject (s : State) (d : List Nat) (n : Int)
      (h : ¬ s.initialized = true ∨ n < 16 ∨ n > 2097152) :
      Step s (.loadRom d n) s
  | loadRom_badMagic (s : State) (d : List Nat) (n : Int)
      (h : ¬ (¬ s.initialized = true ∨ n < 16 ∨ n > 2097152))
      (h1 : ¬ magicOk d) :
      Step s (.loadRom d n) s
  | loadRom_good (s : State) (d : List Nat) (n : Int)
      (h : ¬ (¬ s.initialized = true ∨ n < 16 ∨ n > 2097152))
      (h1 : magicOk d) :
      Step s (.loadRom d n)
        { s with
          rom_buffer := copy_mem s.rom_buffer d n.toNat
          rom_size := n.toNat
          rom_loaded := true }
  | frame_skip (s : State) (h : ¬ s.initialized = true) :
      Step s .frame s
  | frame_render (s : State) (h : s.initialized = true) :
      Step s .frame (render_frame s)
  | reset_any (s : State) :
      Step s .reset (reset s)
  | setButton_oob (s : State) (b p : Int) (h : b < 0 ∨ b > 7) :
      Step s (.setButton b p) s
  | setButton_press (s : State) (b p : Int)
      (h : ¬ (b < 0 ∨ b > 7)) (h1 : p ≠ 0) :
      Step s (.setButton b p) { s with controls := s.controls ||| (1 <<< b.toNat) }
  | setButton_release (s : State) (b p : Int)
      (h : ¬ (b < 0 ∨ b > 7)) (h1 : p = 0) :
      Step s (.setButton b p)
        { s with controls := s.controls &&& (4294967295 ^^^ (1 <<< b.toNat)) }
  | setRunning_any (s : State) (r : Int) :
      Step s (.setRunning r) s
  | getFrameBuffer_any (s : State) :
      Step s .getFrameBuffer s
  | getFrameBufferSize_any (s : State) :
      Step s .getFrameBufferSize s
  | getPalette_any (s : State) :
      Step s .getPalette s

/-- A whole run of the relational semantics of `zero-imports.c`. -/
inductive RunRel : State → List Call → State → Prop where
  | nil (s : State) : RunRel s [] s
  | cons (s s1 s2 : State) (c : Call) (cs : List Call)
      (h : Step s c s1) (h1 : RunRel s1 cs s2) :
      RunRel s (c :: cs) s2

end ZI

/-! ## Variant `fceux-zero-imports.c` (FZI) -/

/-- The 64 `{r, g, b}` triples of the canonical palette table that both
`fceux-zero-imports.c` and `nes-standalone.c` embed. -/
def palTable : List (Nat × Nat × Nat) :=
  [(84, 84, 84), (0, 30, 116), (8, 16, 144), (48, 0, 136),
   (68, 0, 100), (92, 0, 48), (84, 4, 0), (60, 24, 0),
   (32, 42, 0), (8, 58, 0), (0, 64, 0), (0, 60, 0),
   (0, 50, 60), (0, 0, 0), (0, 0, 0), (0, 0, 0),
   (152, 150, 152), (8, 76, 196), (48, 50, 236), (92, 30, 228),
   (136, 20, 176), (160, 20, 100), (152, 34, 32), (120, 60, 0),
   (84, 90, 0), (40, 114, 0), (8, 124, 0), (0, 118, 40),
   (0, 102, 120), (0, 0, 0), (0, 0, 0), (0, 0, 0),
   (236, 238, 236), (76, 154, 236), (120, 124, 236), (176, 98, 236),
   (228, 84, 236), (236, 88, 180), (236, 106, 100), (212, 136, 32),
   (160, 170, 0), (116, 196, 0), (76, 208, 32), (56, 204, 108),
   (56, 180, 204), (60, 60, 60), (0, 0, 0), (0, 0, 0),
   (236, 238, 236), (168, 204, 236), (188, 188, 236), (212, 178, 236),
   (236, 174, 236), (236, 174, 212), (236, 180, 176), (228, 196, 144),
   (204, 210, 120), (180, 222, 120), (168, 226, 144), (152, 226, 180),
   (160, 214, 228), (160, 162, 160), (0, 0, 0), (0, 0, 0)]

/-- Component selector for a palette triple (0 = r, 1 = g, 2 = b). -/
def triComp (t : Nat × Nat × Nat) : Nat → Nat
  | 0 => t.1
  | 1 => t.2.1
  | _ => t.2.2

/-- The `init_nes_palette` / `init_palette` loop of the canonical-palette
variants: byte `i*4 + k` gets component `k` of table entry `i` (alpha 255),
covering all 256 palette bytes. -/
def init_canonical_palette (pal : Nat → Nat) : Nat → Nat :=
  fun j =>
    if j < 256 then
      if j % 4 = 3 then 255
      else triComp (palTable.getD (j / 4) (0, 0, 0)) (j % 4)
    else pal j

namespace FZI

/-- The module-level statics of `fceux-zero-imports.c`. -/
structure State where
  frame_buffer : Nat → Nat
  nes_palette : Nat → Nat
  rom_buffer : Nat → Nat
  initialized : Bool
  rom_loaded : Bool
  running : Bool
  controls : Nat
  frame_count : Nat
  rom_size : Nat
  prg_banks : Nat
  chr_banks : Nat
  mapper : Nat
  has_chr_ram : Bool

/-- The state at module load: all statics zero-initialized. -/
def initialState : State :=
  { frame_buffer := fun _ => 0
    nes_palette := fun _ => 0
    rom_buffer := fun _ => 0
    initialized := false
    rom_loaded := false
    running := false
    controls := 0
    frame_count := 0
    rom_size := 0
    prg_banks := 0
    chr_banks := 0
    mapper := 0
    has_chr_ram := false }

/-- `clear_frame_buffer`: zero the frame buffer, then set all alpha bytes. -/
def clear_frame_buffer (fb : Nat → Nat) : Nat → Nat :=
  set_alpha_bytes (zero_mem fb 245760) 245760

/-- One RGB triple of `generate_nes_frame`; `fc` is the already incremented
frame counter.  The base color indexes the palette bytes held in the state,
controller modulation follows, and the mapper-2 / CHR-RAM overlay adds 32 to
red and blue on tiles where `(x + y) & 8` is set. -/
def pixel (s : State) (fc x y : Nat) : Nat × Nat × Nat :=
  let base_color := (x / 8 + y / 8 + fc / 4) &&& 63
  let r0 := s.nes_palette (base_color * 4)
  let g0 := s.nes_palette (base_color * 4 + 1)
  let b0 := s.nes_palette (base_color * 4 + 2)
  let r1 := if s.controls &&& 1 ≠ 0 then (r0 + 64) % 256 else r0
  let r2 := if s.controls &&& 2 ≠ 0 then (r1 + 224) % 256 else r1
  let g1 := if s.controls &&& 4 ≠ 0 then (g0 + 64) % 256 else g0
  let g2 := if s.controls &&& 8 ≠ 0 then (g1 + 224) % 256 else g1
  let b1 := if s.controls &&& 128 ≠ 0 then (b0 + 128) % 256 else b0
  let b2 := if s.controls &&& 64 ≠ 0 then (b1 + 96) % 256 else b1
  if s.mapper = 2 ∧ s.has_chr_ram ∧ (x + y) &&& 8 ≠ 0 then
    ((r2 + 32) % 256, g2, (b2 + 32) % 256)
  else
    (r2, g2, b2)

/-- `generate_nes_frame`: increment the 32-bit frame counter, then write
every pixel; index `i < 245760` holds channel `i % 4` of pixel
`x = (i/4) % 256`, `y = (i/4) / 256`. -/
def generate_nes_frame (s : State) : State :=
  let fc := (s.frame_count + 1) % 4294967296
  { s with
    frame_count := fc
    frame_buffer := fun i =>
      if i < 245760 then
        let p := i / 4
        let rgb := pixel s fc (p % 256) (p / 256)
        if i % 4 = 0 then rgb.1
        else if i % 4 = 1 then rgb.2.1
        else if i % 4 = 2 then rgb.2.2
        else 255
      else s.frame_buffer i }

/-- The state built by a first `init` call: zero the three buffers, reset
the volatile scalars, populate the canonical palette and clear the frame
buffer.  Note that `prg_banks`, `chr_banks`, `mapper` and `has_chr_ram` are
not touched by `init` in this variant. -/
def initFresh (s : State) : State :=
  { s with
    frame_buffer := clear_frame_buffer (zero_mem s.frame_buffer 245760)
    nes_palette := init_canonical_palette (zero_mem s.nes_palette 256)
    rom_buffer := zero_mem s.rom_buffer 2097152
    initialized := true
    rom_loaded := false
    running := false
    controls := 0
    frame_count := 0
    rom_size := 0 }

/-- Exported `init`. -/
def init (s : State) : Nat × State :=
  if s.initialized then (1, s) else (1, initFresh s)

/-- The header-metadata extraction of `loadRom`, executed as soon as the
magic check passes. -/
def withHeaderMeta (s : State) (rom_data : List Nat) : State :=
  { s with
    prg_banks := byteAt rom_data 4
    chr_banks := byteAt rom_data 5
    mapper := (byteAt rom_data 6) >>> 4 ||| ((byteAt rom_data 7) &&& 0xF0)
    has_chr_ram := byteAt rom_data 5 == 0 }

/-- The successful tail of `loadRom`: copy the image, record its size and
set `rom_loaded`. -/
def finishLoad (s : State) (rom_data : List Nat) (size : Int) : State :=
  { s with
    rom_buffer := copy_mem s.rom_buffer rom_data size.toNat
    rom_size := size.toNat
    rom_loaded := true }

/-- Exported `loadRom` (`size` is a C `int`).  The header metadata is
written to the statics before `prg_banks` is validated, so the zero-PRG
failure path returns 0 with the metadata already updated. -/
def loadRom (s : State) (rom_data : List Nat) (size : Int) : Nat × State :=
  if ¬ s.initialized then (0, s)
  else if size < 16 then (0, s)
  else if size > 2097152 then (0, s)
  else if ¬ magicOk rom_data then (0, s)
  else
    let s1 := withHeaderMeta s rom_data
    if s1.prg_banks = 0 then (0, s1)
    else (1, finishLoad s1 rom_data size)

/-- Exported `frame`: gated on `initialized && rom_loaded`; `running` is
ignored. -/
def frame (s : State) : State :=
  if ¬ s.initialized ∨ ¬ s.rom_loaded then s else generate_nes_frame s

/-- Exported `reset`: also clears the advisory `running` flag here. -/
def reset (s : State) : State :=
  { s with
    controls := 0
    running := false
    frame_count := 0
    frame_buffer := clear_frame_buffer s.frame_buffer }

/-- Exported `setButton`; `controls` is a C `unsigned int`. -/
def setButton (s : State) (button pressed : Int) : State :=
  if button < 0 ∨ button > 7 then s
  else
    let mask := 1 <<< button.toNat
    if pressed ≠ 0 then { s with controls := s.controls ||| mask }
    else { s with controls := s.controls &&& (4294967295 ^^^ mask) }

/-- Exported `setRunning`: `running = run_state ? 1 : 0`. -/
def setRunning (s : State) (run_state : Int) : State :=
  { s with running := if run_state ≠ 0 then true else false }

/-- Exported `getFrameBuffer`. -/
def getFrameBuffer (s : State) : (Nat → Nat) × State := (s.frame_buffer, s)

/-- Exported `getFrameBufferSize`: `sizeof(frame_buffer) = 245760`. -/
def getFrameBufferSize (s : State) : Nat × State := (245760, s)

/-- Exported `getPalette`. -/
def getPalette (s : State) : (Nat → Nat) × State := (s.nes_palette, s)

/-- One host-visible entry-point invocation with its arguments. -/
inductive Call where
  | init : Call
  | loadRom : List Nat → Int → Call
  | frame : Call
  | reset : Call
  | setButton : Int → Int → Call
  | setRunning : Int → Call
  | getFrameBuffer : Call
  | getFrameBufferSize : Call
  | getPalette : Call

/-- The state transformation of one entry-point call. -/
def step (s : State) : Call → State
  | .init => (init s).2
  | .loadRom d n => (loadRom s d n).2
  | .frame => frame s
  | .reset => reset s
  | .setButton b p => setButton s b p
  | .setRunning r => setRunning s r
  | .getFrameBuffer => (getFrameBuffer s).2
  | .getFrameBufferSize => (getFrameBufferSize s).2
  | .getPalette => (getPalette s).2

/-- The state after executing a call sequence from module load. -/
def run (cs : List Call) : State := cs.foldl step initialState

/-- Relational small-step semantics of one entry-point call, with one
constructor per control-flow branch of the C code.  Used to state that the
module's behaviour is a function of the call sequence. -/
inductive Step : State → Call → State → Prop where
  | init_already (s : State) (h : s.initialized = true) :
      Step s .init s
  | init_fresh (s : State) (h : s.initialized = false) :
      Step s .init (initFresh s)
  | loadRom_uninit (s : State) (d : List Nat) (n : Int)
      (h : s.initialized = false) :
      Step s (.loadRom d n) s
  | loadRom_small (s : State) (d : List Nat) (n : Int)
      (h : s.initialized = true) (h1 : n < 16) :
      Step s (.loadRom d n) s
  | loadRom_large (s : State) (d : List Nat) (n : Int)
      (h : s.initialized = true) (h1 : ¬ n < 16) (h2 : n > 2097152) :
      Step s (.loadRom d n) s
  | loadRom_badMagic (s : State) (d : List Nat) (n : Int)
      (h : s.initialized = true) (h1 : ¬ n < 16) (h2 : ¬ n > 2097152)
      (h3 : ¬ magicOk d) :
      Step s (.loadRom d n) s
  | loadRom_zeroPrg (s : State) (d : List Nat) (n : Int)
      (h : s.initialized = true) (h1 : ¬ n < 16) (h2 : ¬ n > 2097152)
      (h3 : magicOk d) (h4 : byteAt d 4 = 0) :
      Step s (.loadRom d n) (withHeaderMeta s d)
  | loadRom_good (s : State) (d : List Nat) (n : Int)
      (h : s.initialized = true) (h1 : ¬ n < 16) (h2 : ¬ n > 2097152)
      (h3 : magicOk d) (h4 : ¬ byteAt d 4 = 0) :
      Step s (.loadRom d n) (finishLoad (withHeaderMeta s d) d n)
  | frame_skip (s : State)
      (h : ¬ s.initialized = true ∨ ¬ s.rom_loaded = true) :
      Step s .frame s
  | frame_render (s : State)
      (h : s.initialized = true) (h1 : s.rom_loaded = true) :
      Step s .frame (generate_nes_frame s)
  | reset_any (s : State) :
      Step s .reset (reset s)
  | setButton_oob (s : State) (b p : Int) (h : b < 0 ∨ b > 7) :
      Step s (.setButton b p) s
  | setButton_press (s : State) (b p : Int)
      (h : ¬ (b < 0 ∨ b > 7)) (h1 : p ≠ 0) :
      Step s (.setButton b p) { s with controls := s.controls ||| (1 <<< b.toNat) }
  | setButton_release (s : State) (b p : Int)
      (h : ¬ (b < 0 ∨ b > 7)) (h1 : p = 0) :
      Step s (.setButton b p)
        { s with controls := s.controls &&& (4294967295 ^^^ (1 <<< b.toNat)) }
  | setRunning_any (s : State) (r : Int) :
      Step s (.setRunning r) (setRunning s r)
  | getFrameBuffer_any (s : State) :
      Step s .getFrameBuffer s
  | getFrameBufferSize_any (s : State) :
      Step s .getFrameBufferSize s
  | getPalette_any (s : State) :
      Step s .getPalette s

/-- A whole run of the relational semantics. -/
inductive RunRel : State → List Call → State → Prop where
  | nil (s : State) : RunRel s [] s
  | cons (s s1 s2 : State) (c : Call) (cs : List Call)
      (h : Step s c s1) (h1 : RunRel s1 cs s2) :
      RunRel s (c :: cs) s2

end FZI

/-- Every pixel's alpha byte of a frame buffer is 255 (pixel `p` lives at
byte offset `4 * p`, its alpha byte at `4 * p + 3`). -/
def alphaOK (fb : Nat → Nat) : Prop :=
  ∀ p, p < 61440 → fb (4 * p + 3) = 255

/-- Scheme P pixel colour, written exactly as the specification words it:
base index `c = ((x >> 3) + (y >> 3) + (frame_count >> 2)) mod 64`, base
`(r, g, b)` from palette entry `c`, controller modulation per the spec table
(bit 0: r += 64; bit 1: r -= 32; bit 2: g += 64; bit 3: g -= 32;
bit 6: b += 96; bit 7: b += 128, all mod 256), and — for mapper 2 with
CHR RAM only — `r += 32`, `b += 32` when `(x + y) & 8` is nonzero. -/
def schemePSpec (palette : Nat → Nat) (controls fc mapper : Nat)
    (chr_ram_flag : Bool) (x y : Nat) : Nat × Nat × Nat :=
  let c := ((x >>> 3) + (y >>> 3) + (fc >>> 2)) % 64
  let r0 := palette (c * 4)
  let g0 := palette (c * 4 + 1)
  let b0 := palette (c * 4 + 2)
  let r1 := if controls.testBit 0 then (r0 + 64) % 256 else r0
  let r2 := if controls.testBit 1 then (r1 + 256 - 32) % 256 else r1
  let g1 := if controls.testBit 2 then (g0 + 64) % 256 else g0
  let g2 := if controls.testBit 3 then (g1 + 256 - 32) % 256 else g1
  let b1 := if controls.testBit 6 then (b0 + 96) % 256 else b0
  let b2 := if controls.testBit 7 then (b1 + 128) % 256 else b1
  if mapper = 2 ∧ chr_ram_flag ∧ (x + y) &&& 8 ≠ 0 then
    ((r2 + 32) % 256, g2, (b2 + 32) % 256)
  else (r2, g2, b2)

/-! ## Variant `nes-standalone.c` (NS) -/

namespace NS

/-- The module-level statics of `nes-standalone.c`. -/
structure State where
  frame_buffer : Nat → Nat
  nes_palette : Nat → Nat
  rom_buffer : Nat → Nat
  initialized : Bool
  rom_loaded : Bool
  controls : Nat
  frame_count : Nat
  rom_size : Nat
  mapper : Nat

/-- The state at module load: all statics zero-initialized. -/
def initialState : State :=
  { frame_buffer := fun _ => 0
    nes_palette := fun _ => 0
    rom_buffer := fun _ => 0
    initialized := false
    rom_loaded := false
    controls := 0
    frame_count := 0
    rom_size := 0
    mapper := 0 }

/-- `clear_frame`: zero the frame buffer, then set all alpha bytes. -/
def clear_frame (fb : Nat → Nat) : Nat → Nat :=
  set_alpha_bytes (zero_mem fb 245760) 245760

/-- One RGB triple of `generate_frame`; `fc` is the already incremented
frame counter.  Same palette-indexed base and controller modulation as the
FZI variant, but `generate_frame` has no mapper overlay. -/
def pixel (s : State) (fc x y : Nat) : Nat × Nat × Nat :=
  let color_idx := (x / 8 + y / 8 + fc / 4) &&& 63
  let r0 := s.nes_palette (color_idx * 4)
  let g0 := s.nes_palette (color_idx * 4 + 1)
  let b0 := s.nes_palette (color_idx * 4 + 2)
  let r1 := if s.controls &&& 1 ≠ 0 then (r0 + 64) % 256 else r0
  let r2 := if s.controls &&& 2 ≠ 0 then (r1 + 224) % 256 else r1
  let g1 := if s.controls &&& 4 ≠ 0 then (g0 + 64) % 256 else g0
  let g2 := if s.controls &&& 8 ≠ 0 then (g1 + 224) % 256 else g1
  let b1 := if s.controls &&& 128 ≠ 0 then (b0 + 128) % 256 else b0
  let b2 := if s.controls &&& 64 ≠ 0 then (b1 + 96) % 256 else b1
  (r2, g2, b2)

/-- `generate_frame`: increment the 32-bit frame counter, then write every
pixel. -/
def generate_frame (s : State) : State :=
  let fc := (s.frame_count + 1) % 4294967296
  { s with
    frame_count := fc
    frame_buffer := fun i =>
      if i < 245760 then
        let p := i / 4
        let rgb := pixel s fc (p % 256) (p / 256)
        if i % 4 = 0 then rgb.1
        else if i % 4 = 1 then rgb.2.1
        else if i % 4 = 2 then rgb.2.2
        else 255
      else s.frame_buffer i }

/-- Exported `init`: this variant also resets `mapper`. -/
def init (s : State) : Nat × State :=
  if s.initialized then (1, s)
  else
    (1, { frame_buffer := clear_frame (zero_mem s.frame_buffer 245760)
          nes_palette := init_canonical_palette (zero_mem s.nes_palette 256)
          rom_buffer := zero_mem s.rom_buffer 2097152
          initialized := true
          rom_loaded := false
          controls := 0
          frame_count := 0
          rom_size := 0
          mapper := 0 })

/-- Exported `loadRom` (`size` is a C `int`).  This variant validates only
the size bounds and the magic; it never checks `prg_banks`. -/
def loadRom (s : State) (rom_data : List Nat) (size : Int) : Nat × State :=
  if ¬ s.initialized ∨ size < 16 ∨ size > 2097152 then (0, s)
  else if ¬ magicOk rom_data then (0, s)
  else
    (1, { s with
          mapper := (byteAt rom_data 6) >>> 4 ||| ((byteAt rom_data 7) &&& 0xF0)
          rom_buffer := copy_mem s.rom_buffer rom_data size.toNat
          rom_size := size.toNat
          rom_loaded := true })

/-- Exported `frame`: gated only on `initialized` in this variant. -/
def frame (s : State) : State :=
  if ¬ s.initialized then s else generate_frame s

/-- Exported `reset`. -/
def reset (s : State) : State :=
  { s with controls := 0, frame_count := 0, frame_buffer := clear_frame s.frame_buffer }

/-- Exported `setButton`; `controls` is a C `unsigned int`. -/
def setButton (s : State) (button pressed : Int) : State :=
  if button < 0 ∨ button > 7 then s
  else
    let mask := 1 <<< button.toNat
    if pressed ≠ 0 then { s with controls := s.controls ||| mask }
    else { s with controls := s.controls &&& (4294967295 ^^^ mask) }

/-- Exported `setRunning`: empty body in this variant. -/
def setRunning (s : State) (_running : Int) : State := s

/-- Exported `getFrameBuffer`. -/
def getFrameBuffer (s : State) : (Nat → Nat) × State := (s.frame_buffer, s)

/-- Exported `getFrameBufferSize`: `sizeof(frame_buffer) = 245760`. -/
def getFrameBufferSize (s : State) : Nat × State := (245760, s)

/-- Exported `getPalette`. -/
def getPalette (s : State) : (Nat → Nat) × State := (s.nes_palette, s)

end NS

/-! ## Variant `fceux-simple.c` (FS) -/

namespace FS

/-- The module-level statics of `fceux-simple.c`.  `palette` is an array of
64 `uint32_t` ABGR words; `controls` is a `uint8_t`; `running` holds the raw
`int` passed to `setRunning`.  The `printf` calls are pure logging and have
no bearing on the observable module state. -/
structure State where
  rom_data : Nat → Nat
  rom_size : Nat
  frame_buffer : Nat → Nat
  chr_ram : Nat → Nat
  prg_ram : Nat → Nat
  palette : Nat → Nat
  controls : Nat
  initialized : Bool
  rom_loaded : Bool
  running : Int
  frame_count : Nat
  prg_banks : Nat
  chr_banks : Nat
  mapper : Nat
  has_chr_ram : Bool
  has_trainer : Bool
  has_battery : Bool

/-- The state at module load: all statics zero-initialized. -/
def initialState : State :=
  { rom_data := fun _ => 0
    rom_size := 0
    frame_buffer := fun _ => 0
    chr_ram := fun _ => 0
    prg_ram := fun _ => 0
    palette := fun _ => 0
    controls := 0
    initialized := false
    rom_loaded := false
    running := 0
    frame_count := 0
    prg_banks := 0
    chr_banks := 0
    mapper := 0
    has_chr_ram := false
    has_trainer := false
    has_battery := false }

/-- Exported `init`.  Zeroes `rom_data`, the frame buffer, `chr_ram` and
`prg_ram`, sets the alpha bytes, writes the 64 synthetic ABGR palette words,
and resets `controls`, `rom_loaded`, `running` and `frame_count` — but not
`rom_size` or the header metadata. -/
def init (s : State) : Nat × State :=
  if s.initialized then (1, s)
  else
    (1, { s with
          rom_data := zero_mem s.rom_data 2097152
          frame_buffer := set_alpha_bytes (zero_mem s.frame_buffer 245760) 245760
          chr_ram := zero_mem s.chr_ram 8192
          prg_ram := zero_mem s.prg_ram 8192
          palette := fun j =>
            if j < 64 then
              (0xFF <<< 24) ||| (((j * 16) % 256) <<< 16) |||
                (((j * 8) % 256) <<< 8) ||| ((j * 4) % 256)
            else s.palette j
          controls := 0
          rom_loaded := false
          running := 0
          frame_count := 0
          initialized := true })

/-- Exported `loadRom` (`size` is a C `uint32_t`).  Header metadata is
written to the statics before the `prg_banks` and expected-footprint checks,
so those two failure paths return 0 with the metadata already updated.  On
success, when the header declares zero CHR banks, `chr_ram` is seeded with
the low byte of each index. -/
def loadRom (s : State) (rom : List Nat) (size : Nat) : Nat × State :=
  if ¬ s.initialized then (0, s)
  else if size < 16 then (0, s)
  else if size > 2097152 then (0, s)
  else if ¬ magicOk rom then (0, s)
  else
    let s1 : State :=
      { s with
        prg_banks := byteAt rom 4
        chr_banks := byteAt rom 5
        mapper := (byteAt rom 6) >>> 4 ||| ((byteAt rom 7) &&& 0xF0)
        has_trainer := (byteAt rom 6) &&& 0x04 != 0
        has_battery := (byteAt rom 6) &&& 0x02 != 0
        has_chr_ram := byteAt rom 5 == 0 }
    if s1.prg_banks = 0 then (0, s1)
    else
      let expected_size :=
        16 + (if s1.has_trainer then 512 else 0) +
          s1.prg_banks * 16384 + s1.chr_banks * 8192
      if size < expected_size then (0, s1)
      else
        let s2 : State :=
          { s1 with
            rom_data := copy_mem s1.rom_data rom size
            rom_size := size }
        let s3 : State :=
          if s2.has_chr_ram then
            { s2 with chr_ram := fun i => if i < 8192 then i % 256 else s2.chr_ram i }
          else s2
        (1, { s3 with rom_loaded := true })

/-- Exported `frame`: gated on `initialized && rom_loaded && running` in
this variant.  The renderer switches on the mapper; the mapper-2 arm applies
in-place controller increments (`uint8_t` wrap) to the stored bytes. -/
def frame (s : State) : State :=
  if ¬ s.initialized ∨ ¬ s.rom_loaded ∨ s.running = 0 then s
  else
    let fc := (s.frame_count + 1) % 4294967296
    { s with
      frame_count := fc
      frame_buffer := fun i =>
        if i < 245760 then
          let p := i / 4
          let x := p % 256
          let y := p / 256
          if s.mapper = 0 then
            if i % 4 = 0 then (x + fc) % 256
            else if i % 4 = 1 then 0x20
            else if i % 4 = 2 then (y + fc) % 256
            else 255
          else if s.mapper = 2 then
            let base_color :=
              if s.has_chr_ram then s.chr_ram ((x + y * 16) % 8192) else 0x40
            let v0 :=
              if i % 4 = 0 then 0x40
              else if i % 4 = 1 then (base_color + fc) % 256
              else if i % 4 = 2 then (x + y + fc) % 256
              else 255
            let v1 := if i % 4 = 0 ∧ s.controls &&& 0x01 ≠ 0 then (v0 + 64) % 256 else v0
            let v2 := if i % 4 = 1 ∧ s.controls &&& 0x02 ≠ 0 then (v1 + 64) % 256 else v1
            if i % 4 = 2 ∧ s.controls &&& 0x80 ≠ 0 then (v2 + 64) % 256 else v2
          else
            if i % 4 = 0 then (x * 2 + fc) % 256
            else if i % 4 = 1 then (y * 2 + fc) % 256
            else if i % 4 = 2 then 0x60
            else 255
        else s.frame_buffer i }

/-- Exported `reset`: clears controls, the frame counter and the frame
buffer, and zeroes `chr_ram` when the loaded header declared CHR RAM;
`running` is not touched. -/
def reset (s : State) : State :=
  let s1 : State :=
    { s with
      controls := 0
      frame_count := 0
      frame_buffer := set_alpha_bytes (zero_mem s.frame_buffer 245760) 245760 }
  if s1.has_chr_ram then { s1 with chr_ram := zero_mem s1.chr_ram 8192 } else s1

/-- Exported `setButton`; `controls` is a `uint8_t`, so stores truncate to
a byte. -/
def setButton (s : State) (button pressed : Int) : State :=
  if button < 0 ∨ button > 7 then s
  else
    let mask := 1 <<< button.toNat
    if pressed ≠ 0 then { s with controls := (s.controls ||| mask) % 256 }
    else { s with controls := s.controls &&& (255 ^^^ mask) }

/-- Exported `setRunning`: stores the raw argument. -/
def setRunning (s : State) (is_running : Int) : State :=
  { s with running := is_running }

/-- Exported `getFrameBuffer`. -/
def getFrameBuffer (s : State) : (Nat → Nat) × State := (s.frame_buffer, s)

/-- Exported `getFrameBufferSize`: `sizeof(frame_buffer) = 245760`. -/
def getFrameBufferSize (s : State) : Nat × State := (245760, s)

/-- Exported `getPalette`. -/
def getPalette (s : State) : (Nat → Nat) × State := (s.palette, s)

end FS

/-- A concrete fceux-zero-imports state with a successfully loaded
mapper-0 image (1 PRG bank, 5 CHR banks), used as a rendering example. -/
def fziLoaded : FZI.State :=
  (FZI.loadRom (FZI.init FZI.initialState).2
    [0x4E, 0x45, 0x53, 0x1A, 1, 5, 0, 0, 0, 0, 0, 0, 0, 0, 0, 0] 16).2

/-- The nes-standalone state reached by a bare `init`. -/
def nsInited : NS.State := (NS.init NS.initialState).2

/-! ## Generic bit-manipulation lemmas -/

lemma or_two_pow_testBit_self (c k : Nat) : (c ||| 2 ^ k).testBit k = true := by
  simp [Nat.testBit_or, Nat.testBit_two_pow_self]

lemma or_two_pow_testBit_ne (c k j : Nat) (h : j ≠ k) :
    (c ||| 2 ^ k).testBit j = c.testBit j := by
  simp [Nat.testBit_or, Nat.testBit_two_pow_of_ne (Ne.symm h)]

lemma and_clear_testBit_self (c w k : Nat) (hk : k < w) :
    (c &&& (2 ^ w - 1 ^^^ 2 ^ k)).testBit k = false := by
  simp [Nat.testBit_and, Nat.testBit_xor, Nat.testBit_two_pow_sub_one,
    Nat.testBit_two_pow_self, hk]

lemma and_clear_testBit_ne (c w k j : Nat) (hj : j < w) (h : j ≠ k) :
    (c &&& (2 ^ w - 1 ^^^ 2 ^ k)).testBit j = c.testBit j := by
  simp [Nat.testBit_and, Nat.testBit_xor, Nat.testBit_two_pow_sub_one,
    Nat.testBit_two_pow_of_ne (Ne.symm h), hj]

lemma mod_two_pow_testBit_lt (c n j : Nat) (hj : j < n) :
    (c % 2 ^ n).testBit j = c.testBit j := by
  simp [Nat.testBit_mod_two_pow, hj]

/-! ## Normal forms for setButton -/

lemma ZI_setButton_controls_in (s : ZI.State) (b p : Int) (h0 : 0 ≤ b) (h7 : b ≤ 7) :
    (ZI.setButton s b p).controls =
      if p ≠ 0 then s.controls ||| 2 ^ b.toNat
      else s.controls &&& (2 ^ 32 - 1 ^^^ 2 ^ b.toNat) := by
  have hB : ¬ (b < 0 ∨ b > 7) := by omega
  have h32 : (4294967295 : Nat) = 2 ^ 32 - 1 := by norm_num
  simp only [ZI.setButton, if_neg hB, Nat.one_shiftLeft, h32]
  split <;> rfl

lemma FS_setButton_controls_in (t : FS.State) (b p : Int) (h0 : 0 ≤ b) (h7 : b ≤ 7) :
    (FS.setButton t b p).controls =
      if p ≠ 0 then (t.controls ||| 2 ^ b.toNat) % 2 ^ 8
      else t.controls &&& (2 ^ 8 - 1 ^^^ 2 ^ b.toNat) := by
  have hB : ¬ (b < 0 ∨ b > 7) := by omega
  have h255 : (255 : Nat) = 2 ^ 8 - 1 := by norm_num
  have h256 : (256 : Nat) = 2 ^ 8 := by norm_num
  simp only [FS.setButton, if_neg hB, Nat.one_shiftLeft, h255, h256]
  split <;> rfl

lemma ZI_setButton_only_controls (s : ZI.State) (b p : Int) :
    ZI.setButton s b p = { s with controls := (ZI.setButton s b p).controls } := by
  simp only [ZI.setButton]; repeat' split
  all_goals rfl

lemma FS_setButton_only_controls (t : FS.State) (b p : Int) :
    FS.setButton t b p = { t with controls := (FS.setButton t b p).controls } := by
  simp only [FS.setButton]; repeat' split
  all_goals rfl

/-! ## Claim theorems -/

/-- C10: `loadRom`, whether it succeeds or fails, never modifies the frame
buffer, the palette table, the controls bitfield, or `frame_count`: after
any `loadRom` call those four components equal their values before the call,
in the zero-imports, fceux-zero-imports and nes-standalone variants. -/
theorem C10_loadRom_preserves_frame_state
    (s : ZI.State) (t : FZI.State) (u : NS.State) (d : List Nat) (n m k : Int) :
    ((ZI.loadRom s d n).2.frame_buffer = s.frame_buffer ∧
     (ZI.loadRom s d n).2.nes_palette = s.nes_palette ∧
     (ZI.loadRom s d n).2.controls = s.controls ∧
     (ZI.loadRom s d n).2.frame_count = s.frame_count) ∧
    ((FZI.loadRom t d m).2.frame_buffer = t.frame_buffer ∧
     (FZI.loadRom t d m).2.nes_palette = t.nes_palette ∧
     (FZI.loadRom t d m).2.controls = t.controls ∧
     (FZI.loadRom t d m).2.frame_count = t.frame_count) ∧
    ((NS.loadRom u d k).2.frame_buffer = u.frame_buffer ∧
     (NS.loadRom u d k).2.nes_palette = u.nes_palette ∧
     (NS.loadRom u d k).2.controls = u.controls ∧
     (NS.loadRom u d k).2.frame_count = u.frame_count) := by
  refine ⟨⟨?_, ?_, ?_, ?_⟩, ⟨?_, ?_, ?_, ?_⟩, ⟨?_, ?_, ?_, ?_⟩⟩ <;>
    simp only [ZI.loadRom, FZI.loadRom, NS.loadRom, FZI.withHeaderMeta, FZI.finishLoad] <;>
    (repeat' split) <;> rfl

/-- C8: `frame_count` increases by exactly 1 modulo `2^32` on every `frame()`
call that is permitted to render and is unchanged when the gate fails; it is
changed by no other operation except being set to 0 by a first `init` and by
`reset`; `loadRom`, `setButton`, `setRunning` and the accessors never change
it (zero-imports and fceux-simple variants, each with its own gate). -/
theorem C8_frame_count_discipline
    (s : ZI.State) (t : FS.State) (d : List Nat) (n : Int) (m : Nat) (b p r : Int) :
    ((ZI.frame s).frame_count =
      (if s.initialized then (s.frame_count + 1) % 4294967296 else s.frame_count)) ∧
    ((ZI.init s).2.frame_count = (if s.initialized then s.frame_count else 0)) ∧
    ((ZI.reset s).frame_count = 0) ∧
    ((ZI.loadRom s d n).2.frame_count = s.frame_count) ∧
    ((ZI.setButton s b p).frame_count = s.frame_count) ∧
    ((ZI.setRunning s r).frame_count = s.frame_count) ∧
    ((ZI.getFrameBuffer s).2.frame_count = s.frame_count) ∧
    ((ZI.getFrameBufferSize s).2.frame_count = s.frame_count) ∧
    ((ZI.getPalette s).2.frame_count = s.frame_count) ∧
    ((FS.frame t).frame_count =
      (if ¬ t.initialized = true ∨ ¬ t.rom_loaded = true ∨ t.running = 0 then t.frame_count
       else (t.frame_count + 1) % 4294967296)) ∧
    ((FS.init t).2.frame_count = (if t.initialized then t.frame_count else 0)) ∧
    ((FS.reset t).frame_count = 0) ∧
    ((FS.loadRom t d m).2.frame_count = t.frame_count) ∧
    ((FS.setButton t b p).frame_count = t.frame_count) ∧
    ((FS.setRunning t r).frame_count = t.frame_count) ∧
    ((FS.getFrameBuffer t).2.frame_count = t.frame_count) ∧
    ((FS.getFrameBufferSize t).2.frame_count = t.frame_count) ∧
    ((FS.getPalette t).2.frame_count = t.frame_count) := by
  refine ⟨?_, ?_, rfl, ?_, ?_, rfl, rfl, rfl, rfl, ?_, ?_, ?_, ?_, ?_, rfl, rfl, rfl, rfl⟩
  · unfold ZI.frame
    by_cases h : s.initialized = true
    · rw [if_neg (by simp [h]), if_pos h]; rfl
    · rw [if_pos (by simp [h]), if_neg h]
  · unfold ZI.init
    by_cases h : s.initialized = true
    · rw [if_pos h, if_pos h]
    · rw [if_neg h, if_neg h]
  · simp only [ZI.loadRom]; repeat' split
    all_goals rfl
  · simp only [ZI.setButton]; repeat' split
    all_goals rfl
  · unfold FS.frame
    by_cases h : (¬ t.initialized = true ∨ ¬ t.rom_loaded = true ∨ t.running = 0)
    · rw [if_pos h, if_pos h]
    · rw [if_neg h, if_neg h]
  · unfold FS.init
    by_cases h : t.initialized = true
    · rw [if_pos h, if_pos h]
    · rw [if_neg h, if_neg h]
  · simp only [FS.reset]; split <;> rfl
  · simp only [FS.loadRom]; repeat' split
    all_goals rfl
  · simp only [FS.setButton]; repeat' split
    all_goals rfl

/-- C6: `init` is idempotent: from any state with `initialized` already set,
a second `init` returns 1 and leaves the whole observable state untouched,
and `init` twice from the zero-initialized state reaches exactly the state
of a single `init` (zero-imports and fceux-simple variants). -/
theorem C6_init_idempotent (s : ZI.State) (t : FS.State)
    (hs : s.initialized = true) (ht : t.initialized = true) :
    ZI.init s = (1, s) ∧ FS.init t = (1, t) ∧
    ZI.init (ZI.init ZI.initialState).2 = (1, (ZI.init ZI.initialState).2) ∧
    FS.init (FS.init FS.initialState).2 = (1, (FS.init FS.initialState).2) := by
  refine ⟨by simp [ZI.init, hs], by simp [FS.init, ht], rfl, rfl⟩

/-- Witness for C6 at the state reached by one `init` from module load. -/
theorem C6_init_idempotent_witness :
    ZI.init (ZI.init ZI.initialState).2 = (1, (ZI.init ZI.initialState).2) ∧
    FS.init (FS.init FS.initialState).2 = (1, (FS.init FS.initialState).2) ∧
    ZI.init (ZI.init ZI.initialState).2 = (1, (ZI.init ZI.initialState).2) ∧
    FS.init (FS.init FS.initialState).2 = (1, (FS.init FS.initialState).2) :=
  C6_init_idempotent (ZI.init ZI.initialState).2 (FS.init FS.initialState).2 rfl rfl

/-- C9: `setButton` with a button index outside `[0, 7]` is a no-op; inside
the range it sets bit `b` of `controls` when `pressed` is nonzero, clears it
when `pressed` is zero, leaves every other bit of the controls register
unchanged, and touches no other state component (zero-imports and
fceux-simple variants; the register is 32 bits wide in the former and 8 bits
wide in the latter). -/
theorem C9_setButton_bits (s : ZI.State) (t : FS.State) (b p : Int) :
    ((b < 0 ∨ b > 7) → ZI.setButton s b p = s ∧ FS.setButton t b p = t) ∧
    (0 ≤ b → b ≤ 7 →
      (((ZI.setButton s b p).controls.testBit b.toNat = true ↔ p ≠ 0) ∧
       (∀ j, j < 32 → j ≠ b.toNat →
         (ZI.setButton s b p).controls.testBit j = s.controls.testBit j) ∧
       ZI.setButton s b p = { s with controls := (ZI.setButton s b p).controls }) ∧
      (((FS.setButton t b p).controls.testBit b.toNat = true ↔ p ≠ 0) ∧
       (∀ j, j < 8 → j ≠ b.toNat →
         (FS.setButton t b p).controls.testBit j = t.controls.testBit j) ∧
       FS.setButton t b p = { t with controls := (FS.setButton t b p).controls })) := by
  constructor
  · intro h
    exact ⟨by simp [ZI.setButton, h], by simp [FS.setButton, h]⟩
  · intro h0 h7
    have hbt8 : b.toNat < 8 := by omega
    have hbt32 : b.toNat < 32 := by omega
    have hz := ZI_setButton_controls_in s b p h0 h7
    have hf := FS_setButton_controls_in t b p h0 h7
    by_cases hp : p ≠ 0
    · refine ⟨⟨?_, ?_, ZI_setButton_only_controls s b p⟩,
              ⟨?_, ?_, FS_setButton_only_controls t b p⟩⟩
      · rw [hz, if_pos hp, or_two_pow_testBit_self]; simp [hp]
      · intro j hj hjb
        rw [hz, if_pos hp, or_two_pow_testBit_ne _ _ _ hjb]
      · rw [hf, if_pos hp, mod_two_pow_testBit_lt _ 8 _ hbt8, or_two_pow_testBit_self]
        simp [hp]
      · intro j hj hjb
        rw [hf, if_pos hp, mod_two_pow_testBit_lt _ 8 _ hj, or_two_pow_testBit_ne _ _ _ hjb]
    · refine ⟨⟨?_, ?_, ZI_setButton_only_controls s b p⟩,
              ⟨?_, ?_, FS_setButton_only_controls t b p⟩⟩
      · rw [hz, if_neg hp, and_clear_testBit_self _ 32 _ hbt32]; simp [hp]
      · intro j hj hjb
        rw [hz, if_neg hp, and_clear_testBit_ne _ 32 _ _ hj hjb]
      · rw [hf, if_neg hp, and_clear_testBit_self _ 8 _ hbt8]; simp [hp]
      · intro j hj hjb
        rw [hf, if_neg hp, and_clear_testBit_ne _ 8 _ _ hj hjb]

/-- C1 counterexample: after a bare `init` of the nes-standalone variant —
a reachable state with `initialized` set and `rom_loaded` unset — `frame()`
is not a silent no-op: it runs the generator, increments `frame_count` from
0 to 1, and changes frame-buffer byte 0 from 0 to 84. -/
theorem C1_counterexample :
    (NS.init NS.initialState).2.initialized = true ∧
    (NS.init NS.initialState).2.rom_loaded = false ∧
    (NS.frame (NS.init NS.initialState).2).frame_count = 1 ∧
    (NS.init NS.initialState).2.frame_count = 0 ∧
    (NS.frame (NS.init NS.initialState).2).frame_buffer 0 = 84 ∧
    (NS.init NS.initialState).2.frame_buffer 0 = 0 ∧
    (NS.frame (NS.init NS.initialState).2).frame_buffer 0 ≠
      (NS.init NS.initialState).2.frame_buffer 0 := by
  decide

/-- C1 amended: `frame()` renders (increments `frame_count`) exactly when
the variant's own gate holds — `initialized` alone in nes-standalone and
zero-imports, `initialized && rom_loaded` (ignoring `running`) in
fceux-zero-imports, `initialized && rom_loaded && running` in fceux-simple —
and whenever the gate fails, `frame()` is a silent no-op that leaves the
whole state, in particular every frame-buffer byte, unchanged. -/
theorem C1_amended (sns : NS.State) (szi : ZI.State) (sfz : FZI.State) (sfs : FS.State) :
    ((NS.frame sns).frame_count ≠ sns.frame_count ↔ sns.initialized = true) ∧
    (¬ sns.initialized = true → NS.frame sns = sns) ∧
    ((ZI.frame szi).frame_count ≠ szi.frame_count ↔ szi.initialized = true) ∧
    (¬ szi.initialized = true → ZI.frame szi = szi) ∧
    ((FZI.frame sfz).frame_count ≠ sfz.frame_count ↔
      (sfz.initialized = true ∧ sfz.rom_loaded = true)) ∧
    (¬ (sfz.initialized = true ∧ sfz.rom_loaded = true) → FZI.frame sfz = sfz) ∧
    ((FS.frame sfs).frame_count ≠ sfs.frame_count ↔
      (sfs.initialized = true ∧ sfs.rom_loaded = true ∧ sfs.running ≠ 0)) ∧
    (¬ (sfs.initialized = true ∧ sfs.rom_loaded = true ∧ sfs.running ≠ 0) →
      FS.frame sfs = sfs) := by
  refine ⟨?_, ?_, ?_, ?_, ?_, ?_, ?_, ?_⟩
  · constructor
    · intro hne
      by_contra h
      exact hne (by unfold NS.frame; rw [if_pos h])
    · intro h
      unfold NS.frame
      rw [if_neg (by simp [h])]
      show (NS.generate_frame sns).frame_count ≠ sns.frame_count
      unfold NS.generate_frame
      simp only []
      omega
  · intro h
    unfold NS.frame
    rw [if_pos h]
  · constructor
    · intro hne
      by_contra h
      exact hne (by unfold ZI.frame; rw [if_pos h])
    · intro h
      unfold ZI.frame
      rw [if_neg (by simp [h])]
      show (ZI.render_frame szi).frame_count ≠ szi.frame_count
      unfold ZI.render_frame
      simp only []
      omega
  · intro h
    unfold ZI.frame
    rw [if_pos h]
  · constructor
    · intro hne
      by_contra h
      refine hne (by unfold FZI.frame; rw [if_pos (by tauto)])
    · intro h
      unfold FZI.frame
      rw [if_neg (by simp [h.1, h.2])]
      show (FZI.generate_nes_frame sfz).frame_count ≠ sfz.frame_count
      unfold FZI.generate_nes_frame
      simp only []
      omega
  · intro h
    unfold FZI.frame
    rw [if_pos (by tauto)]
  · constructor
    · intro hne
      by_contra h
      refine hne (by unfold FS.frame; rw [if_pos (by tauto)])
    · intro h
      unfold FS.frame
      rw [if_neg (by simp [h.1, h.2.1, h.2.2])]
      simp only []
      omega
  · intro h
    unfold FS.frame
    rw [if_pos (by tauto)]

/-- Witness for C1 amended at the four zero-initialized module states. -/
theorem C1_amended_witness :
    ((NS.frame NS.initialState).frame_count ≠ NS.initialState.frame_count ↔
      NS.initialState.initialized = true) ∧
    (¬ NS.initialState.initialized = true → NS.frame NS.initialState = NS.initialState) ∧
    ((ZI.frame ZI.initialState).frame_count ≠ ZI.initialState.frame_count ↔
      ZI.initialState.initialized = true) ∧
    (¬ ZI.initialState.initialized = true → ZI.frame ZI.initialState = ZI.initialState) ∧
    ((FZI.frame FZI.initialState).frame_count ≠ FZI.initialState.frame_count ↔
      (FZI.initialState.initialized = true ∧ FZI.initialState.rom_loaded = true)) ∧
    (¬ (FZI.initialState.initialized = true ∧ FZI.initialState.rom_loaded = true) →
      FZI.frame FZI.initialState = FZI.initialState) ∧
    ((FS.frame FS.initialState).frame_count ≠ FS.initialState.frame_count ↔
      (FS.initialState.initialized = true ∧ FS.initialState.rom_loaded = true ∧
        FS.initialState.running ≠ 0)) ∧
    (¬ (FS.initialState.initialized = true ∧ FS.initialState.rom_loaded = true ∧
        FS.initialState.running ≠ 0) →
      FS.frame FS.initialState = FS.initialState) :=
  C1_amended NS.initialState ZI.initialState FZI.initialState FS.initialState

/-- C2 counterexample: from an initialized fceux-zero-imports state holding
a successfully loaded ROM whose header declared 5 CHR banks, a `loadRom` of
a zero-PRG image returns 0 yet overwrites `chr_banks` with 7: the failure is
not atomic. -/
theorem C2_counterexample :
    ((FZI.loadRom (FZI.init FZI.initialState).2
        [0x4E, 0x45, 0x53, 0x1A, 1, 5, 0, 0, 0, 0, 0, 0, 0, 0, 0, 0] 16).1 = 1) ∧
    ((FZI.loadRom (FZI.init FZI.initialState).2
        [0x4E, 0x45, 0x53, 0x1A, 1, 5, 0, 0, 0, 0, 0, 0, 0, 0, 0, 0] 16).2.chr_banks = 5) ∧
    ((FZI.loadRom
        (FZI.loadRom (FZI.init FZI.initialState).2
          [0x4E, 0x45, 0x53, 0x1A, 1, 5, 0, 0, 0, 0, 0, 0, 0, 0, 0, 0] 16).2
        [0x4E, 0x45, 0x53, 0x1A, 0, 7, 0, 0, 0, 0, 0, 0, 0, 0, 0, 0] 16).1 = 0) ∧
    ((FZI.loadRom
        (FZI.loadRom (FZI.init FZI.initialState).2
          [0x4E, 0x45, 0x53, 0x1A, 1, 5, 0, 0, 0, 0, 0, 0, 0, 0, 0, 0] 16).2
        [0x4E, 0x45, 0x53, 0x1A, 0, 7, 0, 0, 0, 0, 0, 0, 0, 0, 0, 0] 16).2.chr_banks = 7) := by
  decide

/-- C2 amended: whenever `loadRom` returns 0 in the fceux variants,
`rom_loaded`, `rom_size` and the ROM staging buffer (and in fceux-simple
also `chr_ram`) keep their prior values; the header metadata
(`prg_banks`, `chr_banks`, `mapper`, `has_chr_ram`, and in fceux-simple
`has_trainer`/`has_battery`) is not covered, since the failure paths after
the magic check revise it. -/
theorem C2_amended (s : FZI.State) (d : List Nat) (n : Int)
    (t : FS.State) (e : List Nat) (m : Nat)
    (hf : (FZI.loadRom s d n).1 = 0) (hg : (FS.loadRom t e m).1 = 0) :
    ((FZI.loadRom s d n).2.rom_loaded = s.rom_loaded ∧
     (FZI.loadRom s d n).2.rom_size = s.rom_size ∧
     (FZI.loadRom s d n).2.rom_buffer = s.rom_buffer) ∧
    ((FS.loadRom t e m).2.rom_loaded = t.rom_loaded ∧
     (FS.loadRom t e m).2.rom_size = t.rom_size ∧
     (FS.loadRom t e m).2.rom_data = t.rom_data ∧
     (FS.loadRom t e m).2.chr_ram = t.chr_ram) := by
  constructor
  · clear hg
    revert hf
    simp only [FZI.loadRom, FZI.withHeaderMeta, FZI.finishLoad]
    repeat' split
    all_goals intro hf
    all_goals first | exact ⟨rfl, rfl, rfl⟩ | simp_all
  · clear hf
    revert hg
    simp only [FS.loadRom]
    repeat' split
    all_goals intro hg
    all_goals first | exact ⟨rfl, rfl, rfl, rfl⟩ | simp_all

/-- Witness for C2 amended on an uninitialized state rejecting an empty
image. -/
theorem C2_amended_witness :
    ((FZI.loadRom FZI.initialState [] 0).2.rom_loaded = FZI.initialState.rom_loaded ∧
     (FZI.loadRom FZI.initialState [] 0).2.rom_size = FZI.initialState.rom_size ∧
     (FZI.loadRom FZI.initialState [] 0).2.rom_buffer = FZI.initialState.rom_buffer) ∧
    ((FS.loadRom FS.initialState [] 0).2.rom_loaded = FS.initialState.rom_loaded ∧
     (FS.loadRom FS.initialState [] 0).2.rom_size = FS.initialState.rom_size ∧
     (FS.loadRom FS.initialState [] 0).2.rom_data = FS.initialState.rom_data ∧
     (FS.loadRom FS.initialState [] 0).2.chr_ram = FS.initialState.chr_ram) :=
  C2_amended FZI.initialState [] 0 FS.initialState [] 0 (by decide) (by decide)

/-- C3 counterexample: a 16-byte image with a valid magic, size 16 and
`prg_banks = 0` is accepted by the nes-standalone variant: `loadRom`
returns 1 and sets `rom_loaded`, although the claim demands rejection. -/
theorem C3_counterexample :
    byteAt [0x4E, 0x45, 0x53, 0x1A, 0, 0, 0, 0, 0, 0, 0, 0, 0, 0, 0, 0] 0 = 0x4E ∧
    byteAt [0x4E, 0x45, 0x53, 0x1A, 0, 0, 0, 0, 0, 0, 0, 0, 0, 0, 0, 0] 1 = 0x45 ∧
    byteAt [0x4E, 0x45, 0x53, 0x1A, 0, 0, 0, 0, 0, 0, 0, 0, 0, 0, 0, 0] 2 = 0x53 ∧
    byteAt [0x4E, 0x45, 0x53, 0x1A, 0, 0, 0, 0, 0, 0, 0, 0, 0, 0, 0, 0] 3 = 0x1A ∧
    byteAt [0x4E, 0x45, 0x53, 0x1A, 0, 0, 0, 0, 0, 0, 0, 0, 0, 0, 0, 0] 4 = 0 ∧
    (NS.loadRom (NS.init NS.initialState).2
      [0x4E, 0x45, 0x53, 0x1A, 0, 0, 0, 0, 0, 0, 0, 0, 0, 0, 0, 0] 16).1 = 1 ∧
    (NS.loadRom (NS.init NS.initialState).2
      [0x4E, 0x45, 0x53, 0x1A, 0, 0, 0, 0, 0, 0, 0, 0, 0, 0, 0, 0] 16).2.rom_loaded = true := by
  decide

/-- C3 amended: an image whose first 16 bytes form a well-formed header
prefix with `prg_banks = 0` is rejected with no `rom_loaded` change by the
fceux variants, but the nes-standalone variant never validates `prg_banks`
and, once initialized, accepts the image and sets `rom_loaded`. -/
theorem C3_amended (s : FZI.State) (t : FS.State) (u : NS.State)
    (d : List Nat) (n : Int) (m : Nat)
    (hmagic : magicOk d) (hprg : byteAt d 4 = 0)
    (hn : 16 ≤ n) (hn2 : n ≤ 2097152) (hm : 16 ≤ m) (hm2 : m ≤ 2097152) :
    ((FZI.loadRom s d n).1 = 0 ∧ (FZI.loadRom s d n).2.rom_loaded = s.rom_loaded) ∧
    ((FS.loadRom t d m).1 = 0 ∧ (FS.loadRom t d m).2.rom_loaded = t.rom_loaded) ∧
    (u.initialized = true →
      (NS.loadRom u d n).1 = 1 ∧ (NS.loadRom u d n).2.rom_loaded = true) := by
  refine ⟨?_, ?_, ?_⟩
  · by_cases hi : s.initialized = true
    · unfold FZI.loadRom
      rw [if_neg (by simp [hi]), if_neg (by omega), if_neg (by omega),
        if_neg (by simp [hmagic]),
        if_pos (show (FZI.withHeaderMeta s d).prg_banks = 0 from hprg)]
      exact ⟨rfl, rfl⟩
    · unfold FZI.loadRom
      rw [if_pos (by simp [hi])]
      exact ⟨rfl, rfl⟩
  · by_cases hi : t.initialized = true
    · unfold FS.loadRom
      rw [if_neg (by simp [hi]), if_neg (by omega), if_neg (by omega),
        if_neg (by simp [hmagic]), if_pos hprg]
      exact ⟨rfl, rfl⟩
    · unfold FS.loadRom
      rw [if_pos (by simp [hi])]
      exact ⟨rfl, rfl⟩
  · intro hu
    unfold NS.loadRom
    rw [if_neg (by push_neg; exact ⟨by simp [hu], by omega, by omega⟩),
      if_neg (by simp [hmagic])]
    exact ⟨rfl, rfl⟩

/-- Witness for C3 amended on the concrete zero-PRG 16-byte image. -/
theorem C3_amended_witness :
    ((FZI.loadRom FZI.initialState
        [0x4E, 0x45, 0x53, 0x1A, 0, 0, 0, 0, 0, 0, 0, 0, 0, 0, 0, 0] 16).1 = 0 ∧
     (FZI.loadRom FZI.initialState
        [0x4E, 0x45, 0x53, 0x1A, 0, 0, 0, 0, 0, 0, 0, 0, 0, 0, 0, 0] 16).2.rom_loaded =
       FZI.initialState.rom_loaded) ∧
    ((FS.loadRom FS.initialState
        [0x4E, 0x45, 0x53, 0x1A, 0, 0, 0, 0, 0, 0, 0, 0, 0, 0, 0, 0] 16).1 = 0 ∧
     (FS.loadRom FS.initialState
        [0x4E, 0x45, 0x53, 0x1A, 0, 0, 0, 0, 0, 0, 0, 0, 0, 0, 0, 0] 16).2.rom_loaded =
       FS.initialState.rom_loaded) ∧
    ((NS.init NS.initialState).2.initialized = true →
      (NS.loadRom (NS.init NS.initialState).2
        [0x4E, 0x45, 0x53, 0x1A, 0, 0, 0, 0, 0, 0, 0, 0, 0, 0, 0, 0] 16).1 = 1 ∧
      (NS.loadRom (NS.init NS.initialState).2
        [0x4E, 0x45, 0x53, 0x1A, 0, 0, 0, 0, 0, 0, 0, 0, 0, 0, 0, 0] 16).2.rom_loaded = true) :=
  C3_amended FZI.initialState FS.initialState (NS.init NS.initialState).2
    [0x4E, 0x45, 0x53, 0x1A, 0, 0, 0, 0, 0, 0, 0, 0, 0, 0, 0, 0] 16 16
    (by decide) (by decide) (by decide) (by decide) (by decide) (by decide)

/-! ## Bridging Scheme P as implemented to Scheme P as specified -/

lemma and_pow_ne_iff (c k : Nat) : (c &&& 2 ^ k ≠ 0) ↔ c.testBit k = true := by
  rw [Nat.and_two_pow]
  cases h : c.testBit k <;> simp [Nat.pow_eq_zero]

lemma land_one_ne (c : Nat) : (c &&& 1 ≠ 0) = (c.testBit 0 = true) :=
  propext (by rw [show (1 : Nat) = 2 ^ 0 by norm_num]; exact and_pow_ne_iff c 0)

lemma land_two_ne (c : Nat) : (c &&& 2 ≠ 0) = (c.testBit 1 = true) :=
  propext (by rw [show (2 : Nat) = 2 ^ 1 by norm_num]; exact and_pow_ne_iff c 1)

lemma land_four_ne (c : Nat) : (c &&& 4 ≠ 0) = (c.testBit 2 = true) :=
  propext (by rw [show (4 : Nat) = 2 ^ 2 by norm_num]; exact and_pow_ne_iff c 2)

lemma land_eight_ne (c : Nat) : (c &&& 8 ≠ 0) = (c.testBit 3 = true) :=
  propext (by rw [show (8 : Nat) = 2 ^ 3 by norm_num]; exact and_pow_ne_iff c 3)

lemma land_sixtyfour_ne (c : Nat) : (c &&& 64 ≠ 0) = (c.testBit 6 = true) :=
  propext (by rw [show (64 : Nat) = 2 ^ 6 by norm_num]; exact and_pow_ne_iff c 6)

lemma land_onetwentyeight_ne (c : Nat) : (c &&& 128 ≠ 0) = (c.testBit 7 = true) :=
  propext (by rw [show (128 : Nat) = 2 ^ 7 by norm_num]; exact and_pow_ne_iff c 7)

lemma and63_eq_mod (n : Nat) : n &&& 63 = n % 64 := by
  have h : (63 : Nat) = 2 ^ 6 - 1 := by norm_num
  rw [h, Nat.and_pow_two_sub_one_eq_mod]

lemma schemeP_index (x y fc : Nat) :
    (x / 8 + y / 8 + fc / 4) &&& 63 = ((x >>> 3) + (y >>> 3) + (fc >>> 2)) % 64 := by
  rw [and63_eq_mod, Nat.shiftRight_eq_div_pow, Nat.shiftRight_eq_div_pow,
    Nat.shiftRight_eq_div_pow]

lemma sub32_eq (a : Nat) : a + 256 - 32 = a + 224 := by omega

lemma bchan_comm (t6 t7 : Bool) (b0 : Nat) :
    (if t6 = true then ((if t7 = true then (b0 + 128) % 256 else b0) + 96) % 256
     else if t7 = true then (b0 + 128) % 256 else b0) =
    (if t7 = true then ((if t6 = true then (b0 + 96) % 256 else b0) + 128) % 256
     else if t6 = true then (b0 + 96) % 256 else b0) := by
  cases t6 <;> cases t7 <;> simp

lemma FZI_pixel_spec (s : FZI.State) (fc x y : Nat) :
    FZI.pixel s fc x y =
      schemePSpec s.nes_palette s.controls fc s.mapper s.has_chr_ram x y := by
  unfold FZI.pixel schemePSpec
  simp only [schemeP_index, land_one_ne, land_two_ne, land_four_ne, land_eight_ne,
    land_sixtyfour_ne, land_onetwentyeight_ne, sub32_eq]
  rw [bchan_comm]

lemma NS_pixel_spec (s : NS.State) (fc x y : Nat) :
    NS.pixel s fc x y =
      schemePSpec s.nes_palette s.controls fc s.mapper false x y := by
  unfold NS.pixel schemePSpec
  simp only [schemeP_index, land_one_ne, land_two_ne, land_four_ne, land_eight_ne,
    land_sixtyfour_ne, land_onetwentyeight_ne, sub32_eq]
  rw [if_neg (show ¬ (s.mapper = 2 ∧ (false : Bool) = true ∧ (x + y).testBit 3 = true) by simp),
    bchan_comm]

/-- C4 counterexample: load a mapper-2, zero-CHR-bank (hence CHR-RAM) image
into the nes-standalone variant and render pixel `(8, 0)`, where
`(x + y) & 8 ≠ 0` so the claimed overlay applies: the claimed formula yields
red byte 32 (palette entry 1 red 0, plus the overlay 32), but the rendered
buffer holds 0 — `generate_frame` has no mapper overlay. -/
theorem C4_counterexample :
    ((NS.loadRom (NS.init NS.initialState).2
        [0x4E, 0x45, 0x53, 0x1A, 1, 0, 0x20, 0, 0, 0, 0, 0, 0, 0, 0, 0] 16).2.mapper = 2) ∧
    byteAt [0x4E, 0x45, 0x53, 0x1A, 1, 0, 0x20, 0, 0, 0, 0, 0, 0, 0, 0, 0] 5 = 0 ∧
    ((8 + 0) &&& 8 ≠ 0) ∧
    ((NS.frame (NS.loadRom (NS.init NS.initialState).2
        [0x4E, 0x45, 0x53, 0x1A, 1, 0, 0x20, 0, 0, 0, 0, 0, 0, 0, 0, 0] 16).2).frame_buffer
      ((0 * 256 + 8) * 4) = 0) ∧
    ((schemePSpec
        (NS.loadRom (NS.init NS.initialState).2
          [0x4E, 0x45, 0x53, 0x1A, 1, 0, 0x20, 0, 0, 0, 0, 0, 0, 0, 0, 0] 16).2.nes_palette
        0 1 2 true 8 0).1 = 32) ∧
    ((NS.frame (NS.loadRom (NS.init NS.initialState).2
        [0x4E, 0x45, 0x53, 0x1A, 1, 0, 0x20, 0, 0, 0, 0, 0, 0, 0, 0, 0] 16).2).frame_buffer
      ((0 * 256 + 8) * 4) ≠
     (schemePSpec
        (NS.loadRom (NS.init NS.initialState).2
          [0x4E, 0x45, 0x53, 0x1A, 1, 0, 0x20, 0, 0, 0, 0, 0, 0, 0, 0, 0] 16).2.nes_palette
        0 1 2 true 8 0).1) := by
  decide

/-- C4 amended: a permitted `frame()` writes, at every pixel `(x, y)` and
RGB channel, exactly the specification's Scheme P value — base colour from
palette entry `((x >> 3) + (y >> 3) + (frame_count >> 2)) mod 64` with the
spec table's controller modulation mod 256 — where the fceux-zero-imports
variant applies the mapper-2/CHR-RAM overlay exactly as claimed, while the
nes-standalone variant applies no overlay at all (its pixels match Scheme P
with the CHR-RAM flag forced off). -/
theorem C4_amended (s : FZI.State) (u : NS.State) (x y ch : Nat)
    (hx : x < 256) (hy : y < 240) (hch : ch < 3)
    (hs1 : s.initialized = true) (hs2 : s.rom_loaded = true) (hu : u.initialized = true) :
    (FZI.frame s).frame_buffer ((y * 256 + x) * 4 + ch) =
      triComp (schemePSpec s.nes_palette s.controls ((s.frame_count + 1) % 4294967296)
        s.mapper s.has_chr_ram x y) ch ∧
    (NS.frame u).frame_buffer ((y * 256 + x) * 4 + ch) =
      triComp (schemePSpec u.nes_palette u.controls ((u.frame_count + 1) % 4294967296)
        u.mapper false x y) ch := by
  have hidx : (y * 256 + x) * 4 + ch < 245760 := by omega
  have hdiv : ((y * 256 + x) * 4 + ch) / 4 = y * 256 + x := by omega
  have hmod : ((y * 256 + x) * 4 + ch) % 4 = ch := by omega
  have hxx : (y * 256 + x) % 256 = x := by omega
  have hyy : (y * 256 + x) / 256 = y := by omega
  constructor
  · unfold FZI.frame
    rw [if_neg (by simp [hs1, hs2])]
    unfold FZI.generate_nes_frame
    simp only []
    rw [if_pos hidx, hdiv, hmod, hxx, hyy, FZI_pixel_spec]
    interval_cases ch <;> rfl
  · unfold NS.frame
    rw [if_neg (by simp [hu])]
    unfold NS.generate_frame
    simp only []
    rw [if_pos hidx, hdiv, hmod, hxx, hyy, NS_pixel_spec]
    interval_cases ch <;> rfl

/-- Witness for C4 amended at pixel `(0, 0)`, red channel, on concrete
loaded states. -/
theorem C4_amended_witness :
    (FZI.frame fziLoaded).frame_buffer ((0 * 256 + 0) * 4 + 0) =
      triComp (schemePSpec fziLoaded.nes_palette fziLoaded.controls
        ((fziLoaded.frame_count + 1) % 4294967296) fziLoaded.mapper
        fziLoaded.has_chr_ram 0 0) 0 ∧
    (NS.frame nsInited).frame_buffer ((0 * 256 + 0) * 4 + 0) =
      triComp (schemePSpec nsInited.nes_palette nsInited.controls
        ((nsInited.frame_count + 1) % 4294967296) nsInited.mapper false 0 0) 0 :=
  C4_amended fziLoaded nsInited 0 0 0 (by decide) (by decide) (by decide)
    (by decide) (by decide) (by decide)

/-! ## Alpha-byte invariant machinery -/

lemma alphaOK_set_alpha (fb : Nat → Nat) : alphaOK (set_alpha_bytes fb 245760) := by
  intro q hq
  unfold set_alpha_bytes
  exact if_pos ⟨by omega, by omega⟩

lemma ZI_render_alpha (s : ZI.State) : alphaOK (ZI.render_frame s).frame_buffer := by
  intro q hq
  unfold ZI.render_frame
  simp only []
  rw [if_pos (show 4 * q + 3 < 245760 by omega), show (4 * q + 3) % 4 = 3 by omega]
  rfl

lemma FZI_render_alpha (s : FZI.State) : alphaOK (FZI.generate_nes_frame s).frame_buffer := by
  intro q hq
  unfold FZI.generate_nes_frame
  simp only []
  rw [if_pos (show 4 * q + 3 < 245760 by omega), show (4 * q + 3) % 4 = 3 by omega]
  rfl

lemma ZI_loadRom_fb (s : ZI.State) (d : List Nat) (n : Int) :
    (ZI.loadRom s d n).2.frame_buffer = s.frame_buffer := by
  simp only [ZI.loadRom]; repeat' split
  all_goals rfl

lemma ZI_loadRom_init (s : ZI.State) (d : List Nat) (n : Int) :
    (ZI.loadRom s d n).2.initialized = s.initialized := by
  simp only [ZI.loadRom]; repeat' split
  all_goals rfl

lemma FZI_loadRom_fb (s : FZI.State) (d : List Nat) (n : Int) :
    (FZI.loadRom s d n).2.frame_buffer = s.frame_buffer := by
  simp only [FZI.loadRom, FZI.withHeaderMeta, FZI.finishLoad]; repeat' split
  all_goals rfl

lemma FZI_loadRom_init (s : FZI.State) (d : List Nat) (n : Int) :
    (FZI.loadRom s d n).2.initialized = s.initialized := by
  simp only [FZI.loadRom, FZI.withHeaderMeta, FZI.finishLoad]; repeat' split
  all_goals rfl

lemma ZI_step_inv (s : ZI.State) (c : ZI.Call)
    (h : s.initialized = true → alphaOK s.frame_buffer) :
    (ZI.step s c).initialized = true → alphaOK (ZI.step s c).frame_buffer := by
  cases c with
  | init =>
    show (ZI.init s).2.initialized = true → alphaOK (ZI.init s).2.frame_buffer
    unfold ZI.init
    by_cases hi : s.initialized = true
    · rw [if_pos hi]; exact h
    · rw [if_neg hi]
      intro
      exact alphaOK_set_alpha _
  | loadRom d n =>
    show (ZI.loadRom s d n).2.initialized = true → alphaOK (ZI.loadRom s d n).2.frame_buffer
    rw [ZI_loadRom_fb, ZI_loadRom_init]
    exact h
  | frame =>
    show (ZI.frame s).initialized = true → alphaOK (ZI.frame s).frame_buffer
    unfold ZI.frame
    by_cases hi : s.initialized = true
    · rw [if_neg (by simp [hi])]
      intro
      exact ZI_render_alpha s
    · rw [if_pos (by simp [hi])]
      exact h
  | reset =>
    intro
    exact alphaOK_set_alpha _
  | setButton b p =>
    show (ZI.setButton s b p).initialized = true → alphaOK (ZI.setButton s b p).frame_buffer
    rw [ZI_setButton_only_controls s b p]
    exact h
  | setRunning r => exact h
  | getFrameBuffer => exact h
  | getFrameBufferSize => exact h
  | getPalette => exact h

lemma FZI_step_inv (s : FZI.State) (c : FZI.Call)
    (h : s.initialized = true → alphaOK s.frame_buffer) :
    (FZI.step s c).initialized = true → alphaOK (FZI.step s c).frame_buffer := by
  cases c with
  | init =>
    show (FZI.init s).2.initialized = true → alphaOK (FZI.init s).2.frame_buffer
    unfold FZI.init FZI.initFresh
    by_cases hi : s.initialized = true
    · rw [if_pos hi]; exact h
    · rw [if_neg hi]
      intro
      exact alphaOK_set_alpha _
  | loadRom d n =>
    show (FZI.loadRom s d n).2.initialized = true → alphaOK (FZI.loadRom s d n).2.frame_buffer
    rw [FZI_loadRom_fb, FZI_loadRom_init]
    exact h
  | frame =>
    show (FZI.frame s).initialized = true → alphaOK (FZI.frame s).frame_buffer
    unfold FZI.frame
    by_cases hg : (¬ s.initialized = true ∨ ¬ s.rom_loaded = true)
    · rw [if_pos hg]
      exact h
    · rw [if_neg hg]
      intro
      exact FZI_render_alpha s
  | reset =>
    intro
    exact alphaOK_set_alpha _
  | setButton b p =>
    show (FZI.setButton s b p).initialized = true → alphaOK (FZI.setButton s b p).frame_buffer
    unfold FZI.setButton
    repeat' split
    all_goals exact h
  | setRunning r => exact h
  | getFrameBuffer => exact h
  | getFrameBufferSize => exact h
  | getPalette => exact h

lemma ZI_run_inv (cs : List ZI.Call) :
    (ZI.run cs).initialized = true → alphaOK (ZI.run cs).frame_buffer := by
  have key : ∀ (cs : List ZI.Call) (s : ZI.State),
      (s.initialized = true → alphaOK s.frame_buffer) →
      ((cs.foldl ZI.step s).initialized = true →
        alphaOK (cs.foldl ZI.step s).frame_buffer) := by
    intro cs
    induction cs with
    | nil => intro s hs; exact hs
    | cons c cs ih => intro s hs; exact ih _ (ZI_step_inv s c hs)
  exact key cs ZI.initialState (fun h0 => absurd h0 (by decide))

lemma FZI_run_inv (ds : List FZI.Call) :
    (FZI.run ds).initialized = true → alphaOK (FZI.run ds).frame_buffer := by
  have key : ∀ (ds : List FZI.Call) (s : FZI.State),
      (s.initialized = true → alphaOK s.frame_buffer) →
      ((ds.foldl FZI.step s).initialized = true →
        alphaOK (ds.foldl FZI.step s).frame_buffer) := by
    intro ds
    induction ds with
    | nil => intro s hs; exact hs
    | cons c cs ih => intro s hs; exact ih _ (FZI_step_inv s c hs)
  exact key ds FZI.initialState (fun h0 => absurd h0 (by decide))

/-- C5: on every state reachable by a call sequence from module load, each
pixel's alpha byte equals 255 immediately after `init` returns, immediately
after `reset` returns, and after every `frame()` call whose gate permits
rendering (zero-imports and fceux-zero-imports variants). -/
theorem C5_alpha_always_255 (cs : List ZI.Call) (ds : List FZI.Call)
    (q : Nat) (hq : q < 61440) :
    ((ZI.init (ZI.run cs)).2.frame_buffer (4 * q + 3) = 255) ∧
    ((ZI.reset (ZI.run cs)).frame_buffer (4 * q + 3) = 255) ∧
    ((ZI.run cs).initialized = true →
      (ZI.frame (ZI.run cs)).frame_buffer (4 * q + 3) = 255) ∧
    ((FZI.init (FZI.run ds)).2.frame_buffer (4 * q + 3) = 255) ∧
    ((FZI.reset (FZI.run ds)).frame_buffer (4 * q + 3) = 255) ∧
    ((FZI.run ds).initialized = true → (FZI.run ds).rom_loaded = true →
      (FZI.frame (FZI.run ds)).frame_buffer (4 * q + 3) = 255) := by
  refine ⟨?_, ?_, ?_, ?_, ?_, ?_⟩
  · unfold ZI.init
    by_cases hi : (ZI.run cs).initialized = true
    · rw [if_pos hi]
      exact ZI_run_inv cs hi q hq
    · rw [if_neg hi]
      exact alphaOK_set_alpha _ q hq
  · exact alphaOK_set_alpha _ q hq
  · intro hi
    unfold ZI.frame
    rw [if_neg (by simp [hi])]
    exact ZI_render_alpha _ q hq
  · unfold FZI.init FZI.initFresh
    by_cases hi : (FZI.run ds).initialized = true
    · rw [if_pos hi]
      exact FZI_run_inv ds hi q hq
    · rw [if_neg hi]
      exact alphaOK_set_alpha _ q hq
  · exact alphaOK_set_alpha _ q hq
  · intro hi hr
    unfold FZI.frame
    rw [if_neg (by simp [hi, hr])]
    exact FZI_render_alpha _ q hq

/-- Witness for C5 at pixel 0 of the empty call sequence. -/
theorem C5_alpha_always_255_witness :
    ((ZI.init (ZI.run [])).2.frame_buffer (4 * 0 + 3) = 255) ∧
    ((ZI.reset (ZI.run [])).frame_buffer (4 * 0 + 3) = 255) ∧
    ((ZI.run []).initialized = true →
      (ZI.frame (ZI.run [])).frame_buffer (4 * 0 + 3) = 255) ∧
    ((FZI.init (FZI.run [])).2.frame_buffer (4 * 0 + 3) = 255) ∧
    ((FZI.reset (FZI.run [])).frame_buffer (4 * 0 + 3) = 255) ∧
    ((FZI.run []).initialized = true → (FZI.run []).rom_loaded = true →
      (FZI.frame (FZI.run [])).frame_buffer (4 * 0 + 3) = 255) :=
  C5_alpha_always_255 [] [] 0 (by decide)

/-! ## Determinism of the relational semantics -/

lemma ZI_step_det (s s1 s2 : ZI.State) (c : ZI.Call)
    (h1 : ZI.Step s c s1) (h2 : ZI.Step s c s2) : s1 = s2 := by
  cases h1 <;> cases h2 <;> first | rfl | (simp_all; done) | (exfalso; tauto)

lemma ZI_runRel_det (cs : List ZI.Call) (s s1 s2 : ZI.State)
    (h1 : ZI.RunRel s cs s1) (h2 : ZI.RunRel s cs s2) : s1 = s2 := by
  induction cs generalizing s with
  | nil =>
    cases h1
    cases h2
    rfl
  | cons c cs ih =>
    cases h1 with
    | cons _ t1 _ _ _ hs1 hr1 =>
      cases h2 with
      | cons _ t2 _ _ _ hs2 hr2 =>
        cases ZI_step_det s t1 t2 c hs1 hs2
        exact ih _ hr1 hr2

lemma FZI_step_det (s s1 s2 : FZI.State) (c : FZI.Call)
    (h1 : FZI.Step s c s1) (h2 : FZI.Step s c s2) : s1 = s2 := by
  cases h1 <;> cases h2 <;> first | rfl | simp_all

lemma FZI_runRel_det (cs : List FZI.Call) (s s1 s2 : FZI.State)
    (h1 : FZI.RunRel s cs s1) (h2 : FZI.RunRel s cs s2) : s1 = s2 := by
  induction cs generalizing s with
  | nil =>
    cases h1
    cases h2
    rfl
  | cons c cs ih =>
    cases h1 with
    | cons _ t1 _ _ _ hs1 hr1 =>
      cases h2 with
      | cons _ t2 _ _ _ hs2 hr2 =>
        cases FZI_step_det s t1 t2 c hs1 hs2
        exact ih _ hr1 hr2

/-- C7: the module is deterministic: two runs of the relational semantics
from the zero-initialized module state over the same call sequence (same
arguments, same ROM bytes) end in bytewise-identical frame buffers — indeed
identical whole states, so all exported scalars agree too — in both cited
variants, zero-imports and fceux-zero-imports. -/
theorem C7_deterministic (cs : List ZI.Call) (ds : List FZI.Call)
    (z1 z2 : ZI.State) (s1 s2 : FZI.State)
    (hz1 : ZI.RunRel ZI.initialState cs z1) (hz2 : ZI.RunRel ZI.initialState cs z2)
    (h1 : FZI.RunRel FZI.initialState ds s1) (h2 : FZI.RunRel FZI.initialState ds s2) :
    ((∀ i, z1.frame_buffer i = z2.frame_buffer i) ∧ z1 = z2) ∧
    ((∀ i, s1.frame_buffer i = s2.frame_buffer i) ∧ s1 = s2) := by
  have hz := ZI_runRel_det cs ZI.initialState z1 z2 hz1 hz2
  have h := FZI_runRel_det ds FZI.initialState s1 s2 h1 h2
  exact ⟨⟨fun i => by rw [hz], hz⟩, ⟨fun i => by rw [h], h⟩⟩

/-- Witness for C7 on the one-call sequence `[init]` of each variant. -/
theorem C7_deterministic_witness :
    ((∀ i, (ZI.init ZI.initialState).2.frame_buffer i =
        (ZI.init ZI.initialState).2.frame_buffer i) ∧
      (ZI.init ZI.initialState).2 = (ZI.init ZI.initialState).2) ∧
    ((∀ i, (FZI.initFresh FZI.initialState).frame_buffer i =
        (FZI.initFresh FZI.initialState).frame_buffer i) ∧
      FZI.initFresh FZI.initialState = FZI.initFresh FZI.initialState) :=
  C7_deterministic [ZI.Call.init] [FZI.Call.init]
    (ZI.init ZI.initialState).2 (ZI.init ZI.initialState).2
    (FZI.initFresh FZI.initialState) (FZI.initFresh FZI.initialState)
    (ZI.RunRel.cons _ _ _ _ _ (ZI.Step.init_fresh _ rfl) (ZI.RunRel.nil _))
    (ZI.RunRel.cons _ _ _ _ _ (ZI.Step.init_fresh _ rfl) (ZI.RunRel.nil _))
    (FZI.RunRel.cons _ _ _ _ _ (FZI.Step.init_fresh _ rfl) (FZI.RunRel.nil _))
    (FZI.RunRel.cons _ _ _ _ _ (FZI.Step.init_fresh _ rfl) (FZI.RunRel.nil _))

end NesCore
